import Mathlib

/-!
Shallow embedding of the SatelliteETL ingestion/processing orchestrator
(services/api-poller, services/downloader, services/processor) and proofs
about its discovery, deduplication, retry, cleanup and state-machine
behaviour.  Every definition mirrors a concrete piece of the Python source;
wall-clock readings (query durations, download durations) that the code
obtains from time.time() are passed in as explicit parameters.
-/

namespace SatelliteETL

/-- Manifest status values written by the services (column file_manifest.status). -/
inductive Status where
  | QUEUED
  | DOWNLOADING
  | RETRY
  | DOWNLOADED
  | PROCESSING
  | COMPLETE
  | SKIPPED
  | FAILED
  | PROCESSING_FAILED
deriving DecidableEq, Repr

/-- Terminal states of the manifest state machine (spec section 4.2). -/
def Status.isTerminal : Status → Bool
  | .COMPLETE => true
  | .SKIPPED => true
  | .FAILED => true
  | .PROCESSING_FAILED => true
  | _ => false

/-- Calendar timestamp, the parts of a Python datetime the pipeline formats with
strftime (year/month/day hour:minute:second). -/
structure DateTime where
  year : Nat
  month : Nat
  day : Nat
  hour : Nat
  minute : Nat
  second : Nat
deriving DecidableEq, Repr

/-- Zero-pads a numeral to two digits, as strftime %m/%d/%H/%M/%S do. -/
def pad2 (n : Nat) : String :=
  if n < 10 then "0" ++ toString n else toString n

/-- Zero-pads a numeral to four digits, as strftime %Y does. -/
def pad4 (n : Nat) : String :=
  if n < 10 then "000" ++ toString n
  else if n < 100 then "00" ++ toString n
  else if n < 1000 then "0" ++ toString n
  else toString n

/-- Renders strftime format %Y/%m/%d used for the raw and processed directory trees. -/
def fmtDatePath (t : DateTime) : String :=
  pad4 t.year ++ "/" ++ pad2 t.month ++ "/" ++ pad2 t.day

/-- Renders strftime format %Y%m%d_%H%M%S used in artifact file names. -/
def fmtCompact (t : DateTime) : String :=
  pad4 t.year ++ pad2 t.month ++ pad2 t.day ++ "_" ++
    pad2 t.hour ++ pad2 t.minute ++ pad2 t.second

/-!  Discovery window (services/api-poller/poller.py, EUMETSATPoller.query_new_files).
Times are integers in minutes; timedelta(hours=h) is 60*h minutes. -/

/-- Search window computed by query_new_files: dtend = now - timedelta(hours=min_age_hours),
dtstart = dtend - timedelta(minutes=lookback_minutes); returns (dtstart, dtend). -/
def queryWindow (now minAgeHours lookbackMinutes : Int) : Int × Int :=
  let dtend := now - 60 * minAgeHours
  let dtstart := dtend - lookbackMinutes
  (dtstart, dtend)

/-!  Poller data model (services/api-poller/database.py and poller.py). -/

/-- Metadata dictionary built by EUMETSATPoller extract of a product
(fields file_id, timestamp, satellite, product_type, size_mb). -/
structure ProductInfo where
  file_id : String
  timestamp : DateTime
  satellite : String
  product_type : String
  size_mb : Rat
deriving DecidableEq, Repr

/-- Row of the file_manifest table as inserted by the poller. -/
structure ManifestRow where
  file_id : String
  timestamp : DateTime
  satellite : String
  product_type : String
  status : Status
  file_size_mb : Rat
deriving DecidableEq, Repr

/-- Row of the api_query_log table written by Database.log_api_query. -/
structure QueryLogEntry where
  files_found : Nat
  files_new : Nat
  query_duration : Rat
  status : String
  error_message : Option String
deriving DecidableEq, Repr

/-- Payload of a Celery tasks.download_file message sent to download_queue. -/
structure DownloadTaskMsg where
  file_id : String
  timestamp : DateTime
  satellite : String
  size_mb : Rat
  collection_id : String
  product_id : String
deriving DecidableEq, Repr

/-- Database.is_file_processed: SELECT 1 FROM file_manifest WHERE file_id = given id. -/
def is_file_processed (manifest : List ManifestRow) (file_id : String) : Bool :=
  manifest.any (fun r => r.file_id == file_id)

/-- Database.log_new_file: INSERT ... ON CONFLICT (file_id) DO NOTHING RETURNING id;
returns the new manifest and whether a row was actually inserted (RETURNING
produces no row on conflict, so the Python function returns False then). -/
def log_new_file (manifest : List ManifestRow) (f : ProductInfo) :
    List ManifestRow × Bool :=
  if manifest.any (fun r => r.file_id == f.file_id) then
    (manifest, false)
  else
    (manifest ++ [{ file_id := f.file_id, timestamp := f.timestamp,
                    satellite := f.satellite, product_type := f.product_type,
                    status := Status.QUEUED, file_size_mb := f.size_mb }], true)

/-- EUMETSATPoller.filter_new_files: keeps only files not yet in the manifest. -/
def filter_new_files (manifest : List ManifestRow) (files : List ProductInfo) :
    List ProductInfo :=
  files.filter (fun f => !(is_file_processed manifest f.file_id))

/-- Download task payload built in EUMETSATPoller.enqueue_downloads
(product_id equals the file_id, collection_id from configuration). -/
def mkDownloadTask (collection_id : String) (f : ProductInfo) : DownloadTaskMsg :=
  { file_id := f.file_id, timestamp := f.timestamp, satellite := f.satellite,
    size_mb := f.size_mb, collection_id := collection_id, product_id := f.file_id }

/-- EUMETSATPoller.enqueue_downloads: for each file, log_new_file first and send the
Celery task only when the insert succeeded; returns the manifest, the download
queue and the enqueued count. -/
def enqueue_downloads (manifest : List ManifestRow) (queue : List DownloadTaskMsg)
    (collection_id : String) : List ProductInfo → List ManifestRow × List DownloadTaskMsg × Nat
  | [] => (manifest, queue, 0)
  | f :: fs =>
      let (m1, inserted) := log_new_file manifest f
      if inserted then
        let (m2, q2, n) :=
          enqueue_downloads m1 (queue ++ [mkDownloadTask collection_id f]) collection_id fs
        (m2, q2, n + 1)
      else
        enqueue_downloads m1 queue collection_id fs

/-- Outcome of the eumdac collection.search call inside query_new_files: either a
product list (already passed through extract, which the model treats as the
identity) or a raised exception with its message. -/
inductive SearchOutcome where
  | ok (products : List ProductInfo)
  | err (msg : String)
deriving DecidableEq, Repr

/-- Result of one EUMETSATPoller.query_new_files call: rows appended to
api_query_log, the returned file list, and how many search calls were made. -/
structure QueryResult where
  log_entries : List QueryLogEntry
  files : List ProductInfo
  search_calls : Nat
deriving DecidableEq, Repr

/-- EUMETSATPoller.query_new_files, as a function of the search outcome and the
measured query duration.  On success with zero results the function returns
early, before the db.log_api_query call, so nothing is logged; otherwise it
logs files_found = total_results and files_new = 0 (the literal 0 the source
passes) with status SUCCESS.  On an exception it logs a FAILED row and returns
an empty list instead of propagating. -/
def query_new_files (outcome : SearchOutcome) (duration : Rat) : QueryResult :=
  match outcome with
  | .ok products =>
      if products.length == 0 then
        { log_entries := [], files := [], search_calls := 1 }
      else
        { log_entries := [{ files_found := products.length, files_new := 0,
                            query_duration := duration, status := "SUCCESS",
                            error_message := none }],
          files := products, search_calls := 1 }
  | .err msg =>
      { log_entries := [{ files_found := 0, files_new := 0,
                          query_duration := duration, status := "FAILED",
                          error_message := some msg }],
        files := [], search_calls := 1 }

/-- Shared durable state seen by the poller: the manifest, the Celery download
queue, and the api_query_log audit table. -/
structure PollerState where
  manifest : List ManifestRow
  queue : List DownloadTaskMsg
  query_log : List QueryLogEntry
deriving DecidableEq, Repr

/-- State before any discovery cycle has run: all tables empty. -/
def emptyPollerState : PollerState :=
  { manifest := [], queue := [], query_log := [] }

/-- EUMETSATPoller.poll, one discovery cycle: query_new_files, early return when
nothing was found, filter_new_files, early return when nothing is new, then
enqueue_downloads. -/
def poll (st : PollerState) (collection_id : String) (outcome : SearchOutcome)
    (duration : Rat) : PollerState :=
  let qr := query_new_files outcome duration
  let st1 : PollerState := { st with query_log := st.query_log ++ qr.log_entries }
  if qr.files.isEmpty then st1
  else
    let newFiles := filter_new_files st1.manifest qr.files
    if newFiles.isEmpty then st1
    else
      let (m, q, _) := enqueue_downloads st1.manifest st1.queue collection_id newFiles
      { st1 with manifest := m, queue := q }

/-- Runs a sequence of scheduled discovery cycles, each with its own search
outcome and measured duration. -/
def runCycles (collection_id : String) (st : PollerState) :
    List (SearchOutcome × Rat) → PollerState
  | [] => st
  | c :: cs => runCycles collection_id (poll st collection_id c.1 c.2) cs

/-- Whether a given file_id appears in the search results of one cycle. -/
def outcomeDiscovers (o : SearchOutcome) (fid : String) : Bool :=
  match o with
  | .ok products => products.any (fun f => f.file_id == fid)
  | .err _ => false

/-- Whether a given file_id ever appears in the search results of a cycle list. -/
def cyclesDiscover (cycles : List (SearchOutcome × Rat)) (fid : String) : Bool :=
  cycles.any (fun c => outcomeDiscovers c.1 fid)

/-!  Download worker (services/downloader/tasks.py, task tasks.download_file).
The module-level import list matters: both failure handlers call shutil.rmtree,
but the module never imports shutil, so evaluating that name raises NameError
inside the handler and the handled exception is replaced by the NameError. -/

/-- Module-level names imported by services/downloader/tasks.py (lines 1 to 14).
shutil is absent; tarfile and zipfile are imported locally inside the success
branch only. -/
def downloaderTasksImports : List String :=
  ["logging", "os", "time", "datetime", "timedelta", "Dict", "Any",
   "requests", "eumdac", "Task", "SoftTimeLimitExceeded", "redis",
   "celery_app", "config", "database"]

/-- Whether the name shutil resolves at module scope in downloader tasks.py. -/
def shutilDefined : Bool := downloaderTasksImports.contains "shutil"

/-- Behaviour of one fetch of the raw product: it succeeds after some duration,
raises a transient exception (network or IO error), or hits the Celery soft
time limit. -/
inductive FetchOutcome where
  | success (duration : Rat)
  | transientError (msg : String)
  | softTimeout
deriving DecidableEq, Repr

/-- Arguments of one Database.update_download_status call (None parameters, which
the dynamic SQL leaves out of the UPDATE, are none here). -/
structure DownloadWrite where
  status : Status
  attempt : Option Nat
  error_message : Option String
  file_path : Option String
  download_duration : Option Rat
deriving DecidableEq, Repr

/-- Payload of a Celery tasks.process_file message sent to processing_queue. -/
structure ProcessTaskMsg where
  file_id : String
  file_path : String
  main_file : String
  timestamp : DateTime
  satellite : String
deriving DecidableEq, Repr

/-- Retry delay schedule, config key download.retry_delay_seconds with the
default [60, 300, 900] used by tasks.py. -/
def retryDelays : List Nat := [60, 300, 900]

/-- Countdown passed to self.retry: retry_delays[min(attempt - 1, len - 1)]. -/
def retryCountdown (attempt : Nat) : Nat :=
  retryDelays.getD (min (attempt - 1) (retryDelays.length - 1)) 0

/-- How one execution of the task body ends: a normal return, a raise of
self.retry with a countdown, or an exception that escapes the handlers. -/
inductive AttemptExit where
  | returned
  | raisedRetry (countdown : Nat)
  | raisedOther (msg : String)
deriving DecidableEq, Repr

/-- Observable effects of one execution of the download_file body: manifest
writes in order, process tasks enqueued, whether the raw output directory
exists on disk at exit, and how the body ended. -/
structure AttemptTrace where
  writes : List DownloadWrite
  enqueued : List ProcessTaskMsg
  dirExists : Bool
  exitKind : AttemptExit
deriving DecidableEq, Repr

/-- Raw output directory, /raw/%Y/%m/%d/%Y%m%d_%H%M%S_MSG_HRSEVIRI, derived from
the task timestamp. -/
def rawOutputDir (t : DateTime) : String :=
  "/raw/" ++ fmtDatePath t ++ "/" ++ fmtCompact t ++ "_MSG_HRSEVIRI"

/-- One execution of the download_file task body at a given attempt number
(attempt = self.request.retries + 1).  It always writes DOWNLOADING with the
attempt counter first and creates the output directory.  On success it writes
DOWNLOADED with the directory path and duration and enqueues the process task.
On a transient exception or soft timeout the handler first runs
shutil.rmtree(output_dir): with shutil undefined this raises NameError before
any RETRY or FAILED write of the handler, leaving the directory in place;
were shutil imported, the handler would delete the directory and either write
RETRY and raise self.retry (attempt below 3, or any soft timeout) or write
FAILED (transient exception at attempt 3 or above). -/
def download_attempt (task : DownloadTaskMsg) (attempt : Nat)
    (outcome : FetchOutcome) : AttemptTrace :=
  let outDir := rawOutputDir task.timestamp
  let w0 : DownloadWrite :=
    { status := Status.DOWNLOADING, attempt := some attempt,
      error_message := none, file_path := none, download_duration := none }
  match outcome with
  | .success d =>
      { writes := [w0,
          { status := Status.DOWNLOADED, attempt := none, error_message := none,
            file_path := some outDir, download_duration := some d }],
        enqueued := [{ file_id := task.file_id, file_path := outDir,
                       main_file := outDir ++ "/product_data.nat",
                       timestamp := task.timestamp, satellite := task.satellite }],
        dirExists := true, exitKind := AttemptExit.returned }
  | .transientError msg =>
      if shutilDefined then
        if attempt < 3 then
          { writes := [w0,
              { status := Status.RETRY, attempt := none, error_message := some msg,
                file_path := none, download_duration := none }],
            enqueued := [], dirExists := false,
            exitKind := AttemptExit.raisedRetry (retryCountdown attempt) }
        else
          { writes := [w0,
              { status := Status.FAILED, attempt := none,
                error_message := some ("Max retries reached: " ++ msg),
                file_path := none, download_duration := none }],
            enqueued := [], dirExists := false, exitKind := AttemptExit.returned }
      else
        { writes := [w0], enqueued := [], dirExists := true,
          exitKind := AttemptExit.raisedOther "NameError: name shutil is not defined" }
  | .softTimeout =>
      if shutilDefined then
        { writes := [w0,
            { status := Status.RETRY, attempt := none,
              error_message := some "Download timed out",
              file_path := none, download_duration := none }],
          enqueued := [], dirExists := false,
          exitKind := AttemptExit.raisedRetry (retryCountdown attempt) }
      else
        { writes := [w0], enqueued := [], dirExists := true,
          exitKind := AttemptExit.raisedOther "NameError: name shutil is not defined" }

/-- Full trace of a delivered download task across Celery retries. -/
structure DownloadRunTrace where
  writes : List DownloadWrite
  enqueued : List ProcessTaskMsg
  dirExists : Bool
deriving DecidableEq, Repr

/-- Celery max_retries of tasks.download_file (decorator argument). -/
def downloadMaxRetries : Nat := 3

/-- Manifest write made by DownloadTask.on_failure when an exception escapes. -/
def onFailureWrite (msg : String) : DownloadWrite :=
  { status := Status.FAILED, attempt := none, error_message := some msg,
    file_path := none, download_duration := none }

/-- Drives download_file under Celery semantics: the n-th list element is the
fetch outcome of the execution with retries = n.  A body that returns ends the
task; an escaping exception (not in autoretry_for) triggers on_failure, which
writes FAILED; self.retry re-delivers while retries is below max_retries and
otherwise raises MaxRetriesExceededError, which also reaches on_failure. -/
def download_run (task : DownloadTaskMsg) : Nat → List FetchOutcome → DownloadRunTrace
  | _, [] => { writes := [], enqueued := [], dirExists := false }
  | retries, o :: rest =>
      let a := download_attempt task (retries + 1) o
      match a.exitKind with
      | .returned =>
          { writes := a.writes, enqueued := a.enqueued, dirExists := a.dirExists }
      | .raisedOther msg =>
          { writes := a.writes ++ [onFailureWrite msg], enqueued := a.enqueued,
            dirExists := a.dirExists }
      | .raisedRetry _ =>
          if retries < downloadMaxRetries then
            let r := download_run task (retries + 1) rest
            { writes := a.writes ++ r.writes, enqueued := a.enqueued ++ r.enqueued,
              dirExists := if rest.isEmpty then a.dirExists else r.dirExists }
          else
            { writes := a.writes ++ [onFailureWrite "MaxRetriesExceededError"],
              enqueued := a.enqueued, dirExists := a.dirExists }

/-!  Processor (services/processor/quality.py and tasks.py).  NaN-carrying numpy
arrays become lists of optional rationals (none is NaN); a Scene is the satpy
scene with its optional HRV channel and optional solar_zenith_angle dataset.
An absent HRV channel models the KeyError raised by the scene lookup, the
exception source of the quality check; Python renders its message with quotes,
which the model elides. -/

/-- Loaded satpy scene as the quality check sees it. -/
structure Scene where
  hrv : Option (List (Option Rat))
  solar_zenith : Option (List (Option Rat))
deriving DecidableEq, Repr

/-- Quality result dictionary returned by QualityAssessment.assess. -/
structure QualityResult where
  skip : Bool
  skip_reason : Option String
  quality_score : Rat
  missing_data_pct : Rat
  saturation_pct : Rat
  mean_solar_zenith : Option Rat
deriving DecidableEq, Repr

/-- Counts NaN entries, np.isnan(a).sum(). -/
def nanCount (xs : List (Option Rat)) : Nat :=
  (xs.filter (fun x => x.isNone)).length

/-- Mean over the non-NaN entries, np.nanmean. -/
def nanmean (xs : List (Option Rat)) : Rat :=
  let vals := xs.filterMap id
  (vals.foldl (fun a b => a + b) 0) / (vals.length : Rat)

/-- Abstraction of the Python f-string float rendering (such as %.1f) used only
inside skip-reason texts; no theorem depends on the exact digits. -/
def pyFmt (q : Rat) : String := toString q

/-- QualityAssessment.assess.  The result starts at skip false, score 100,
missing 0, saturation 0, zenith None.  A missing HRV channel raises KeyError,
which the handler turns into skip true with a QUALITY_CHECK_ERROR reason.
Otherwise: missing percentage above max_missing_pct skips; then, when the
solar_zenith_angle dataset is present, a mean zenith above max_solar_zenith
skips as nighttime; otherwise saturation (share of non-NaN values above 0.95
over all pixels) and score 100 - missing, floored at 0, are filled in. -/
def assess (max_missing_pct max_solar_zenith : Rat) (scene : Scene) : QualityResult :=
  let base : QualityResult :=
    { skip := false, skip_reason := none, quality_score := 100,
      missing_data_pct := 0, saturation_pct := 0, mean_solar_zenith := none }
  match scene.hrv with
  | none =>
      { base with skip := true,
                  skip_reason := some ("QUALITY_CHECK_ERROR: " ++ "HRV") }
  | some hrv =>
      let missing : Rat := ((nanCount hrv : Rat) / (hrv.length : Rat)) * 100
      let r1 := { base with missing_data_pct := missing }
      if missing > max_missing_pct then
        { r1 with skip := true,
                  skip_reason := some ("EXCESSIVE_MISSING_DATA (" ++ pyFmt missing ++ "%)"),
                  quality_score := 0 }
      else
        let afterZenith : QualityResult × Bool :=
          match scene.solar_zenith with
          | some sza =>
              let m := nanmean sza
              let r2 := { r1 with mean_solar_zenith := some m }
              if m > max_solar_zenith then
                ({ r2 with skip := true,
                           skip_reason := some ("NIGHTTIME_IMAGE (SZA=" ++ pyFmt m ++ ")"),
                           quality_score := 0 }, true)
              else (r2, false)
          | none => (r1, false)
        if afterZenith.2 then afterZenith.1
        else
          let r3 := afterZenith.1
          let saturated : Nat := ((hrv.filterMap id).filter (fun v => v > (95 : Rat) / 100)).length
          let satPct : Rat := ((saturated : Rat) / (hrv.length : Rat)) * 100
          { r3 with saturation_pct := satPct,
                    quality_score := max 0 (100 - missing) }

/-- Arguments of one Database.update_processing_status call (None parameters,
left out of the dynamic UPDATE by the source, are none here). -/
structure ProcessWrite where
  status : Status
  attempt : Option Nat
  error_message : Option String
  skip_reason : Option String
  output_path : Option String
  quality_score : Option Rat
  missing_data_pct : Option Rat
  saturation_pct : Option Rat
  mean_solar_zenith : Option Rat
  processing_duration : Option Rat
deriving DecidableEq, Repr

/-- Blank processing write: only a status, every optional column left out. -/
def procWrite (s : Status) : ProcessWrite :=
  { status := s, attempt := none, error_message := none, skip_reason := none,
    output_path := none, quality_score := none, missing_data_pct := none,
    saturation_pct := none, mean_solar_zenith := none, processing_duration := none }

/-- Outcome of converter.load_nat_file plus the possibility that the soft time
limit fires during it: the scene loads, load returns None (process_file then
raises ValueError), or SoftTimeLimitExceeded is raised. -/
inductive LoadOutcome where
  | ok (scene : Scene)
  | loadReturnsNone
  | softTimeout
deriving DecidableEq, Repr

/-- Behaviour of the post-quality pipeline (calibrate, reproject, subset,
write_netcdf): succeeds, raises with a message, or hits the soft time limit. -/
inductive TransformOutcome where
  | ok
  | raises (msg : String)
  | softTimeout
deriving DecidableEq, Repr

/-- Observable effects of one execution of tasks.process_file: manifest writes
in order, whether cleanup_file removed the raw artifact, the output artifact
path if one was written, whether self.retry was ever called (the task defines
no retry at all), and the status field of the returned dictionary. -/
structure ProcessTrace where
  writes : List ProcessWrite
  rawDeleted : Bool
  outputCreated : Option String
  retried : Bool
  result : String
deriving DecidableEq, Repr

/-- generate_output_path: /processed/%Y/%m/%d/%Y%m%d_%H%M%S_HRV_Paris.nc. -/
def generate_output_path (t : DateTime) : String :=
  "/processed/" ++ fmtDatePath t ++ "/" ++ fmtCompact t ++ "_HRV_Paris.nc"

/-- tasks.process_file.  Writes PROCESSING with attempt 1, loads the scene,
runs the quality check; on skip writes SKIPPED with the reason, score, missing
percentage, zenith and duration, deletes the raw artifact and returns without
touching the remaining steps.  On transform success it writes the output file,
writes COMPLETE with the path, the quality fields and the duration, then
deletes the raw artifact.  On a load failure or transform exception it writes
PROCESSING_FAILED with the error and duration; on a soft timeout it writes
PROCESSING_FAILED with the fixed message and no duration; both delete the raw
artifact and return normally, and no branch calls self.retry. -/
def process_file (msg : ProcessTaskMsg) (load : LoadOutcome)
    (post : TransformOutcome) (max_missing_pct max_solar_zenith : Rat)
    (duration : Rat) : ProcessTrace :=
  let w0 : ProcessWrite := { procWrite Status.PROCESSING with attempt := some 1 }
  match load with
  | .softTimeout =>
      { writes := [w0, { procWrite Status.PROCESSING_FAILED with
                           error_message := some "Processing timeout" }],
        rawDeleted := true, outputCreated := none, retried := false,
        result := "timeout" }
  | .loadReturnsNone =>
      { writes := [w0, { procWrite Status.PROCESSING_FAILED with
                           error_message := some "Failed to load .nat file",
                           processing_duration := some duration }],
        rawDeleted := true, outputCreated := none, retried := false,
        result := "error" }
  | .ok scene =>
      let q := assess max_missing_pct max_solar_zenith scene
      if q.skip then
        { writes := [w0, { procWrite Status.SKIPPED with
                             skip_reason := q.skip_reason,
                             quality_score := some q.quality_score,
                             missing_data_pct := some q.missing_data_pct,
                             mean_solar_zenith := q.mean_solar_zenith,
                             processing_duration := some duration }],
          rawDeleted := true, outputCreated := none, retried := false,
          result := "skipped" }
      else
        match post with
        | .ok =>
            let out := generate_output_path msg.timestamp
            { writes := [w0, { procWrite Status.COMPLETE with
                                 output_path := some out,
                                 quality_score := some q.quality_score,
                                 missing_data_pct := some q.missing_data_pct,
                                 saturation_pct := some q.saturation_pct,
                                 mean_solar_zenith := q.mean_solar_zenith,
                                 processing_duration := some duration }],
              rawDeleted := true, outputCreated := some out, retried := false,
              result := "success" }
        | .raises m =>
            { writes := [w0, { procWrite Status.PROCESSING_FAILED with
                                 error_message := some m,
                                 processing_duration := some duration }],
              rawDeleted := true, outputCreated := none, retried := false,
              result := "error" }
        | .softTimeout =>
            { writes := [w0, { procWrite Status.PROCESSING_FAILED with
                                 error_message := some "Processing timeout" }],
              rawDeleted := true, outputCreated := none, retried := false,
              result := "timeout" }

/-!  State machine of spec section 4.2 and the per-record lifecycle obtained by
composing discovery, the download task and the process task under the
one-in-flight-task-per-record protocol (a process task exists only after the
download task completed successfully). -/

/-- Edges of the manifest transition graph: QUEUED to DOWNLOADING, the
DOWNLOADING/RETRY loop resolving to DOWNLOADED or FAILED, DOWNLOADED to
PROCESSING, and PROCESSING to one of the three processing outcomes.  Terminal
states have no outgoing edge. -/
def validStep : Status → Status → Bool
  | .QUEUED, .DOWNLOADING => true
  | .DOWNLOADING, .RETRY => true
  | .DOWNLOADING, .DOWNLOADED => true
  | .DOWNLOADING, .FAILED => true
  | .RETRY, .DOWNLOADING => true
  | .RETRY, .FAILED => true
  | .DOWNLOADED, .PROCESSING => true
  | .PROCESSING, .COMPLETE => true
  | .PROCESSING, .SKIPPED => true
  | .PROCESSING, .PROCESSING_FAILED => true
  | _, _ => false

/-- Checks that every adjacent pair of the status sequence is a graph edge. -/
def chainValid : List Status → Bool
  | [] => true
  | [_] => true
  | a :: b :: rest => validStep a b && chainValid (b :: rest)

/-- Checks that no status is recorded after a terminal one. -/
def terminalIsLast : List Status → Bool
  | [] => true
  | [_] => true
  | a :: b :: rest => (!a.isTerminal) && terminalIsLast (b :: rest)

/-- Sequence of status values written to the manifest over one record's
lifetime: QUEUED at insert, then the download task writes, then, exactly when
the download task enqueued a process task, the process task writes. -/
def recordStatusTrace (task : DownloadTaskMsg) (outcomes : List FetchOutcome)
    (load : LoadOutcome) (post : TransformOutcome)
    (max_missing_pct max_solar_zenith duration : Rat) : List Status :=
  let d := download_run task 0 outcomes
  let procStatuses :=
    match d.enqueued with
    | [] => []
    | pmsg :: _ =>
        (process_file pmsg load post max_missing_pct max_solar_zenith duration).writes.map
          (fun w => w.status)
  Status.QUEUED :: (d.writes.map (fun w => w.status) ++ procStatuses)

/-!  Concrete sample inputs used by evaluation theorems and witnesses. -/

/-- Sample nominal sensing timestamp. -/
def sampleTime : DateTime :=
  { year := 2024, month := 1, day := 15, hour := 10, minute := 30, second := 0 }

/-- Collection id as configured for SEVIRI high-rate data. -/
def sampleCollectionId : String := "EO:EUM:DAT:MSG:HRSEVIRI"

/-- Sample discovered product descriptor. -/
def sampleProduct : ProductInfo :=
  { file_id := "X1", timestamp := sampleTime, satellite := "MSG",
    product_type := "HRSEVIRI", size_mb := 40 }

/-- Sample download task payload for the same product. -/
def sampleTask : DownloadTaskMsg :=
  { file_id := "X1", timestamp := sampleTime, satellite := "MSG", size_mb := 40,
    collection_id := sampleCollectionId, product_id := "X1" }

/-- Sample process task payload. -/
def sampleProcMsg : ProcessTaskMsg :=
  { file_id := "X1", file_path := rawOutputDir sampleTime,
    main_file := rawOutputDir sampleTime ++ "/product_data.nat",
    timestamp := sampleTime, satellite := "MSG" }

/-- Default quality thresholds, config keys quality.max_missing_percentage (50)
and quality.min_solar_zenith (85). -/
def defaultMaxMissingPct : Rat := 50

/-- Default solar-zenith skip threshold. -/
def defaultMaxSolarZenith : Rat := 85

/-- Daytime scene: one valid HRV pixel, mean solar zenith 40 degrees. -/
def daytimeScene : Scene :=
  { hrv := some [some ((1 : Rat) / 2)], solar_zenith := some [some 40] }

/-- Nighttime scene: one valid HRV pixel, mean solar zenith 90 degrees. -/
def nighttimeScene : Scene :=
  { hrv := some [some ((1 : Rat) / 2)], solar_zenith := some [some 90] }

/-- Scene whose HRV channel is absent, so the quality lookup raises KeyError. -/
def noHrvScene : Scene := { hrv := none, solar_zenith := none }

/-!  Helper counting functions and the poller invariant used for deduplication. -/

/-- Number of manifest rows carrying a given file_id. -/
def mCount (fid : String) (m : List ManifestRow) : Nat :=
  m.countP (fun r => r.file_id == fid)

/-- Number of download tasks carrying a given file_id. -/
def qCount (fid : String) (q : List DownloadTaskMsg) : Nat :=
  q.countP (fun t => t.file_id == fid)

/-- C4: on each discovery cycle the computed search window is
[now - minAge - lookback, now - minAge]: the window end is the current time
minus min_age_hours and the window start is lookback_minutes before that end;
for now = T, min_age_hours = 1 and lookback_minutes = 30 the window is exactly
[T - 90min, T - 60min]. -/
theorem query_window_minage_lookback (now minAgeHours lookbackMinutes T : Int) :
    queryWindow now minAgeHours lookbackMinutes
      = (now - 60 * minAgeHours - lookbackMinutes, now - 60 * minAgeHours)
    ∧ queryWindow T 1 30 = (T - 90, T - 60) := by
  refine ⟨rfl, ?_⟩
  simp only [queryWindow, Prod.mk.injEq]
  omega

/-- C8: a catalog call failure is caught, logged to the QueryLog with status
FAILED, leaves the manifest and download queue untouched, makes the cycle
return an empty result instead of crashing, and is not retried within the
cycle: the function performs exactly one search call per invocation. -/
theorem catalog_failure_contained (st : PollerState) (cid msg : String) (dur : Rat) :
    poll st cid (SearchOutcome.err msg) dur
      = { st with query_log := st.query_log ++
            [{ files_found := 0, files_new := 0, query_duration := dur,
               status := "FAILED", error_message := some msg }] }
    ∧ (poll st cid (SearchOutcome.err msg) dur).manifest = st.manifest
    ∧ (poll st cid (SearchOutcome.err msg) dur).queue = st.queue
    ∧ (query_new_files (SearchOutcome.err msg) dur).files = []
    ∧ (query_new_files (SearchOutcome.err msg) dur).search_calls = 1 :=
  ⟨rfl, rfl, rfl, rfl, rfl⟩

/-- C7: the claim that every discovery cycle logs the found count, the new
count, the duration and the outcome fails on the code: a successful cycle that
discovers one brand-new file logs files_new = 0 even though one discovered
file was not in the manifest, and a successful cycle with zero results logs no
QueryLog entry at all. -/
theorem query_log_misses_new_count :
    (poll emptyPollerState sampleCollectionId (SearchOutcome.ok [sampleProduct]) 1).query_log
      = [{ files_found := 1, files_new := 0, query_duration := 1,
           status := "SUCCESS", error_message := none }]
    ∧ (filter_new_files emptyPollerState.manifest [sampleProduct]).length = 1
    ∧ (poll emptyPollerState sampleCollectionId (SearchOutcome.ok []) 1).query_log = [] := by
  refine ⟨rfl, rfl, rfl⟩

/-- C2: the claimed retry bound fails on the code: because the failure handlers
of download_file call shutil.rmtree without the module ever importing shutil,
the first transient failure raises NameError out of the handler, the record is
marked FAILED by on_failure after a single attempt, and RETRY is never
written, even when every fetch would keep failing transiently. -/
theorem download_transient_fails_after_one_attempt :
    shutilDefined = false
    ∧ (download_run sampleTask 0
          (List.replicate 4 (FetchOutcome.transientError "Connection reset by peer"))).writes.map
          (fun w => (w.status, w.attempt))
        = [(Status.DOWNLOADING, some 1), (Status.FAILED, none)]
    ∧ ((download_run sampleTask 0
          (List.replicate 4 (FetchOutcome.transientError "Connection reset by peer"))).writes.filter
          (fun w => w.status == Status.RETRY)).length = 0
    ∧ (download_run sampleTask 0
          (List.replicate 4 (FetchOutcome.transientError "Connection reset by peer"))).enqueued
        = [] := by
  refine ⟨rfl, rfl, rfl, rfl⟩

/-- C3: the cleanup invariant fails on the code for the download stage: on a
transient failure or a soft timeout the partially written raw directory is not
deleted (the shutil.rmtree cleanup raises NameError first), yet the record is
marked terminal FAILED, so a terminal state coexists with a raw artifact still
on disk. -/
theorem download_failure_partial_artifact_remains :
    shutilDefined = false
    ∧ ((download_run sampleTask 0
          [FetchOutcome.transientError "Connection reset by peer"]).writes.getLast?).map
          (fun w => w.status) = some Status.FAILED
    ∧ (download_run sampleTask 0
          [FetchOutcome.transientError "Connection reset by peer"]).dirExists = true
    ∧ ((download_run sampleTask 0 [FetchOutcome.softTimeout]).writes.getLast?).map
          (fun w => w.status) = some Status.FAILED
    ∧ (download_run sampleTask 0 [FetchOutcome.softTimeout]).dirExists = true := by
  refine ⟨rfl, rfl, rfl, rfl, rfl⟩

set_option maxRecDepth 8000

/-- Evaluation fact: the concrete nighttime scene is skipped by the quality
gate (mean solar zenith 90 exceeds the 85 threshold). -/
lemma assess_nighttimeScene_skip :
    (assess defaultMaxMissingPct defaultMaxSolarZenith nighttimeScene).skip = true := by
  norm_num [assess, nighttimeScene, defaultMaxMissingPct, defaultMaxSolarZenith,
    nanmean, nanCount, List.filterMap_cons, List.filterMap_nil, id]

/-- Evaluation fact: the concrete daytime scene passes the quality gate. -/
lemma assess_daytimeScene_no_skip :
    (assess defaultMaxMissingPct defaultMaxSolarZenith daytimeScene).skip = false := by
  norm_num [assess, daytimeScene, defaultMaxMissingPct, defaultMaxSolarZenith,
    nanmean, nanCount, List.filterMap_cons, List.filterMap_nil, id]

/-- C5: when the quality report says skip, the record is set to SKIPPED with
the skip reason and the quality fields, the raw artifact is deleted, no output
artifact is created, the task is not retried, and no further pipeline step
runs (the trace does not depend on the downstream transform outcome). -/
theorem quality_skip_is_terminal_designed_outcome (pmsg : ProcessTaskMsg)
    (scene : Scene) (post post2 : TransformOutcome) (maxM maxS dur : Rat)
    (h : (assess maxM maxS scene).skip = true) :
    (process_file pmsg (LoadOutcome.ok scene) post maxM maxS dur).writes
      = [{ procWrite Status.PROCESSING with attempt := some 1 },
         { procWrite Status.SKIPPED with
             skip_reason := (assess maxM maxS scene).skip_reason,
             quality_score := some (assess maxM maxS scene).quality_score,
             missing_data_pct := some (assess maxM maxS scene).missing_data_pct,
             mean_solar_zenith := (assess maxM maxS scene).mean_solar_zenith,
             processing_duration := some dur }]
    ∧ (process_file pmsg (LoadOutcome.ok scene) post maxM maxS dur).rawDeleted = true
    ∧ (process_file pmsg (LoadOutcome.ok scene) post maxM maxS dur).outputCreated = none
    ∧ (process_file pmsg (LoadOutcome.ok scene) post maxM maxS dur).retried = false
    ∧ (process_file pmsg (LoadOutcome.ok scene) post maxM maxS dur).result = "skipped"
    ∧ process_file pmsg (LoadOutcome.ok scene) post maxM maxS dur
        = process_file pmsg (LoadOutcome.ok scene) post2 maxM maxS dur := by
  simp [process_file, h]

/-- Witness for C5 at a concrete nighttime scene: the report skips and the task
ends with the skipped outcome. -/
theorem quality_skip_is_terminal_designed_outcome_witness :
    (assess defaultMaxMissingPct defaultMaxSolarZenith nighttimeScene).skip = true
    ∧ (process_file sampleProcMsg (LoadOutcome.ok nighttimeScene) TransformOutcome.ok
        defaultMaxMissingPct defaultMaxSolarZenith 2).result = "skipped" :=
  ⟨assess_nighttimeScene_skip,
   (quality_skip_is_terminal_designed_outcome sampleProcMsg nighttimeScene
      TransformOutcome.ok TransformOutcome.ok defaultMaxMissingPct
      defaultMaxSolarZenith 2 assess_nighttimeScene_skip).2.2.2.2.1⟩

/-- C6: a transform failure or a task timeout sets the record to terminal
PROCESSING_FAILED with the error message, deletes the raw artifact, and never
calls the retry mechanism. -/
theorem transform_failure_is_terminal (pmsg : ProcessTaskMsg) (scene : Scene)
    (post : TransformOutcome) (m : String) (maxM maxS dur : Rat)
    (h : (assess maxM maxS scene).skip = false) :
    (process_file pmsg (LoadOutcome.ok scene) (TransformOutcome.raises m) maxM maxS dur).writes.map
        (fun w => (w.status, w.error_message))
      = [(Status.PROCESSING, none), (Status.PROCESSING_FAILED, some m)]
    ∧ (process_file pmsg (LoadOutcome.ok scene) (TransformOutcome.raises m) maxM maxS dur).rawDeleted = true
    ∧ (process_file pmsg (LoadOutcome.ok scene) (TransformOutcome.raises m) maxM maxS dur).retried = false
    ∧ (process_file pmsg (LoadOutcome.ok scene) TransformOutcome.softTimeout maxM maxS dur).writes.map
        (fun w => (w.status, w.error_message))
      = [(Status.PROCESSING, none), (Status.PROCESSING_FAILED, some "Processing timeout")]
    ∧ (process_file pmsg (LoadOutcome.ok scene) TransformOutcome.softTimeout maxM maxS dur).rawDeleted = true
    ∧ (process_file pmsg (LoadOutcome.ok scene) TransformOutcome.softTimeout maxM maxS dur).retried = false
    ∧ (process_file pmsg LoadOutcome.softTimeout post maxM maxS dur).writes.map
        (fun w => (w.status, w.error_message))
      = [(Status.PROCESSING, none), (Status.PROCESSING_FAILED, some "Processing timeout")]
    ∧ (process_file pmsg LoadOutcome.softTimeout post maxM maxS dur).rawDeleted = true
    ∧ (process_file pmsg LoadOutcome.softTimeout post maxM maxS dur).retried = false := by
  simp [process_file, procWrite, h]

/-- Witness for C6 at a concrete daytime scene and a decode error. -/
theorem transform_failure_is_terminal_witness :
    (assess defaultMaxMissingPct defaultMaxSolarZenith daytimeScene).skip = false
    ∧ (process_file sampleProcMsg (LoadOutcome.ok daytimeScene)
        (TransformOutcome.raises "DecodeError") defaultMaxMissingPct
        defaultMaxSolarZenith 2).rawDeleted = true :=
  ⟨assess_daytimeScene_no_skip,
   (transform_failure_is_terminal sampleProcMsg daytimeScene TransformOutcome.ok
      "DecodeError" defaultMaxMissingPct defaultMaxSolarZenith 2
      assess_daytimeScene_no_skip).2.1⟩

/-- C10: when the quality assessment itself blows up (HRV channel absent from
the scene), assess returns skip = true with a reason starting
QUALITY_CHECK_ERROR: instead of propagating, and the processing task therefore
marks the record SKIPPED, not PROCESSING_FAILED. -/
theorem quality_error_yields_skip (pmsg : ProcessTaskMsg) (scene : Scene)
    (post : TransformOutcome) (maxM maxS dur : Rat) (h : scene.hrv = none) :
    (assess maxM maxS scene).skip = true
    ∧ (assess maxM maxS scene).skip_reason = some ("QUALITY_CHECK_ERROR: " ++ "HRV")
    ∧ (∃ tail, (assess maxM maxS scene).skip_reason
          = some ("QUALITY_CHECK_ERROR:" ++ tail))
    ∧ (process_file pmsg (LoadOutcome.ok scene) post maxM maxS dur).writes.map
        (fun w => w.status) = [Status.PROCESSING, Status.SKIPPED]
    ∧ (process_file pmsg (LoadOutcome.ok scene) post maxM maxS dur).result = "skipped" := by
  obtain ⟨hrv, sz⟩ := scene
  simp only at h
  subst h
  exact ⟨rfl, rfl, ⟨" HRV", rfl⟩, rfl, rfl⟩

/-- Witness for C10 at a concrete scene with no HRV channel. -/
theorem quality_error_yields_skip_witness :
    noHrvScene.hrv = none
    ∧ (process_file sampleProcMsg (LoadOutcome.ok noHrvScene) TransformOutcome.ok
        defaultMaxMissingPct defaultMaxSolarZenith 2).result = "skipped" :=
  ⟨rfl,
   (quality_error_yields_skip sampleProcMsg noHrvScene TransformOutcome.ok
      defaultMaxMissingPct defaultMaxSolarZenith 2 rfl).2.2.2.2⟩

/-- Shape of the process task's manifest writes: always PROCESSING first, then
exactly one of the three terminal processing outcomes. -/
lemma process_file_status_shape (pmsg : ProcessTaskMsg) (load : LoadOutcome)
    (post : TransformOutcome) (maxM maxS dur : Rat) :
    (process_file pmsg load post maxM maxS dur).writes.map (fun w => w.status)
      = [Status.PROCESSING, Status.COMPLETE]
    ∨ (process_file pmsg load post maxM maxS dur).writes.map (fun w => w.status)
      = [Status.PROCESSING, Status.SKIPPED]
    ∨ (process_file pmsg load post maxM maxS dur).writes.map (fun w => w.status)
      = [Status.PROCESSING, Status.PROCESSING_FAILED] := by
  cases load with
  | softTimeout => right; right; rfl
  | loadReturnsNone => right; right; rfl
  | ok scene =>
      cases hsk : (assess maxM maxS scene).skip with
      | true => right; left; simp [process_file, procWrite, hsk]
      | false =>
          cases post with
          | ok => left; simp [process_file, procWrite, hsk]
          | raises m => right; right; simp [process_file, procWrite, hsk]
          | softTimeout => right; right; simp [process_file, procWrite, hsk]

/-- C9: over any modeled per-record lifecycle (discovery insert, one download
task driven by a list of fetch outcomes, and a process task exactly when the
download enqueued one), the sequence of status values written to the manifest
starts at QUEUED, follows only edges of the section 4.2 transition graph, and
never continues past a terminal state. -/
theorem record_status_trace_valid (task : DownloadTaskMsg)
    (outcomes : List FetchOutcome) (load : LoadOutcome) (post : TransformOutcome)
    (maxM maxS dur : Rat) :
    (recordStatusTrace task outcomes load post maxM maxS dur).head? = some Status.QUEUED
    ∧ chainValid (recordStatusTrace task outcomes load post maxM maxS dur) = true
    ∧ terminalIsLast (recordStatusTrace task outcomes load post maxM maxS dur) = true := by
  have hs : shutilDefined = false := rfl
  cases outcomes with
  | nil => exact ⟨rfl, rfl, rfl⟩
  | cons o rest =>
      cases o with
      | success d =>
          have hp := process_file_status_shape
            { file_id := task.file_id, file_path := rawOutputDir task.timestamp,
              main_file := rawOutputDir task.timestamp ++ "/product_data.nat",
              timestamp := task.timestamp, satellite := task.satellite }
            load post maxM maxS dur
          rcases hp with hp | hp | hp <;>
            simp [recordStatusTrace, download_run, download_attempt, hp,
              chainValid, terminalIsLast, validStep, Status.isTerminal]
      | transientError msg =>
          simp [recordStatusTrace, download_run, download_attempt, hs,
            onFailureWrite, chainValid, terminalIsLast, validStep, Status.isTerminal]
      | softTimeout =>
          simp [recordStatusTrace, download_run, download_attempt, hs,
            onFailureWrite, chainValid, terminalIsLast, validStep, Status.isTerminal]

/-- Counting rows over an appended singleton. -/
lemma mCount_append_single (fid : String) (m : List ManifestRow) (r : ManifestRow) :
    mCount fid (m ++ [r]) = mCount fid m + (if r.file_id == fid then 1 else 0) := by
  simp [mCount, List.countP_append, List.countP_cons]

/-- Counting tasks over an appended singleton. -/
lemma qCount_append_single (fid : String) (q : List DownloadTaskMsg)
    (t : DownloadTaskMsg) :
    qCount fid (q ++ [t]) = qCount fid q + (if t.file_id == fid then 1 else 0) := by
  simp [qCount, List.countP_append, List.countP_cons]

/-- A zero row count is the same as the membership check coming back false. -/
lemma mCount_eq_zero_iff (fid : String) (m : List ManifestRow) :
    mCount fid m = 0 ↔ m.any (fun r => r.file_id == fid) = false := by
  simp [mCount, List.countP_eq_zero, List.any_eq_false]

/-- Invariant preservation and the dedup count identity for one
enqueue_downloads pass: starting from a manifest of QUEUED rows holding at
most one row for fid, with the queue count equal to the row count, the pass
leaves all rows QUEUED, yields exactly one fid row when fid was present
before or occurs in the pass input (zero otherwise), and keeps the queue
count equal to the row count. -/
lemma enqueue_downloads_dedup (fid cid : String) :
    ∀ (fs : List ProductInfo) (m : List ManifestRow) (q : List DownloadTaskMsg),
    (∀ r ∈ m, r.status = Status.QUEUED) →
    mCount fid m ≤ 1 →
    qCount fid q = mCount fid m →
    (∀ r ∈ (enqueue_downloads m q cid fs).1, r.status = Status.QUEUED)
    ∧ mCount fid (enqueue_downloads m q cid fs).1
        = (if mCount fid m = 1 ∨ fs.any (fun f => f.file_id == fid) = true then 1 else 0)
    ∧ qCount fid (enqueue_downloads m q cid fs).2.1
        = mCount fid (enqueue_downloads m q cid fs).1 := by
  intro fs
  induction fs with
  | nil =>
      intro m q hQ hle hq
      refine ⟨hQ, ?_, ?_⟩
      · simp only [enqueue_downloads, List.any_nil]
        by_cases h1 : mCount fid m = 1
        · simp [h1]
        · have h0 : mCount fid m = 0 := by omega
          simp [h1, h0]
      · simpa [enqueue_downloads] using hq
  | cons f fs ih =>
      intro m q hQ hle hq
      by_cases hpre : m.any (fun r => r.file_id == f.file_id) = true
      · have hlog : log_new_file m f = (m, false) := by
          simp [log_new_file, hpre]
        have hred : enqueue_downloads m q cid (f :: fs) = enqueue_downloads m q cid fs := by
          simp [enqueue_downloads, hlog]
        rw [hred]
        obtain ⟨c1, c2, c3⟩ := ih m q hQ hle hq
        refine ⟨c1, ?_, c3⟩
        rw [c2]
        by_cases hf : f.file_id = fid
        · have hany : m.any (fun r => r.file_id == fid) = true := by
            rw [← hf]; exact hpre
          have hpos : mCount fid m ≠ 0 := by
            intro h0
            rw [(mCount_eq_zero_iff fid m).mp h0] at hany
            exact Bool.false_ne_true hany
          have h1 : mCount fid m = 1 := by omega
          simp [h1]
        · have hff : (f.file_id == fid) = false := by
            simp [hf]
          simp [hff]
      · have hpre2 : m.any (fun r => r.file_id == f.file_id) = false := by
          simpa using hpre
        have hlog : log_new_file m f
            = (m ++ [{ file_id := f.file_id, timestamp := f.timestamp,
                       satellite := f.satellite, product_type := f.product_type,
                       status := Status.QUEUED, file_size_mb := f.size_mb }], true) := by
          simp [log_new_file, hpre2]
        have hred : enqueue_downloads m q cid (f :: fs)
            = (let res := enqueue_downloads
                 (m ++ [{ file_id := f.file_id, timestamp := f.timestamp,
                          satellite := f.satellite, product_type := f.product_type,
                          status := Status.QUEUED, file_size_mb := f.size_mb }])
                 (q ++ [mkDownloadTask cid f]) cid fs
               (res.1, res.2.1, res.2.2 + 1)) := by
          simp [enqueue_downloads, hlog]
        rw [hred]
        set m1 := m ++ [{ file_id := f.file_id, timestamp := f.timestamp,
                          satellite := f.satellite, product_type := f.product_type,
                          status := Status.QUEUED, file_size_mb := f.size_mb }] with hm1
        set q1 := q ++ [mkDownloadTask cid f] with hq1
        have hQ1 : ∀ r ∈ m1, r.status = Status.QUEUED := by
          intro r hr
          rw [hm1] at hr
          rcases List.mem_append.mp hr with h | h
          · exact hQ r h
          · simp at h
            rw [h]
        have hmc : mCount fid m1 = mCount fid m + (if f.file_id == fid then 1 else 0) := by
          rw [hm1]; exact mCount_append_single fid m _
        have hqc : qCount fid q1 = qCount fid q + (if f.file_id == fid then 1 else 0) := by
          rw [hq1]
          exact qCount_append_single fid q _
        by_cases hf : f.file_id = fid
        · have hany0 : m.any (fun r => r.file_id == fid) = false := by
            rw [← hf]; exact hpre2
          have h0 : mCount fid m = 0 := (mCount_eq_zero_iff fid m).mpr hany0
          have hft : (f.file_id == fid) = true := by simp [hf]
          have hmc1 : mCount fid m1 = 1 := by rw [hmc, h0, hft]; rfl
          have hqc1 : qCount fid q1 = 1 := by rw [hqc, hq, h0, hft]; rfl
          obtain ⟨c1, c2, c3⟩ := ih m1 q1 hQ1 (by omega) (by omega)
          refine ⟨c1, ?_, c3⟩
          rw [c2, hmc1]
          simp [hft]
        · have hff : (f.file_id == fid) = false := by simp [hf]
          have hmc1 : mCount fid m1 = mCount fid m := by rw [hmc, hff]; rfl
          have hqc1 : qCount fid q1 = qCount fid q := by rw [hqc, hff]; rfl
          obtain ⟨c1, c2, c3⟩ := ih m1 q1 hQ1 (by omega) (by omega)
          refine ⟨c1, ?_, c3⟩
          rw [c2, hmc1]
          simp [hff]

/-- When no manifest row carries fid, filtering already-processed files away
does not change whether fid occurs in the list. -/
lemma filter_new_files_any (fid : String) (m : List ManifestRow)
    (h0 : m.any (fun r => r.file_id == fid) = false) :
    ∀ lst : List ProductInfo,
    (filter_new_files m lst).any (fun f => f.file_id == fid)
      = lst.any (fun f => f.file_id == fid)
  | [] => rfl
  | p :: t => by
      have ihp := filter_new_files_any fid m h0 t
      by_cases hp : p.file_id = fid
      · have hproc : is_file_processed m p.file_id = false := by
          rw [is_file_processed, hp]; exact h0
        have hstep : filter_new_files m (p :: t) = p :: filter_new_files m t := by
          simp [filter_new_files, List.filter_cons, hproc]
        rw [hstep, List.any_cons, List.any_cons, ihp]
      · have hpb : (p.file_id == fid) = false := by simp [hp]
        cases hkeep : is_file_processed m p.file_id with
        | false =>
            have hstep : filter_new_files m (p :: t) = p :: filter_new_files m t := by
              simp [filter_new_files, List.filter_cons, hkeep]
            rw [hstep, List.any_cons, List.any_cons, ihp, hpb]
        | true =>
            have hstep : filter_new_files m (p :: t) = filter_new_files m t := by
              simp [filter_new_files, List.filter_cons, hkeep]
            rw [hstep, ihp, List.any_cons, hpb]
            simp

/-- Invariant preservation and the dedup count identity for one full poll
cycle. -/
lemma poll_dedup (fid cid : String) (st : PollerState) (o : SearchOutcome)
    (dur : Rat)
    (hQ : ∀ r ∈ st.manifest, r.status = Status.QUEUED)
    (hle : mCount fid st.manifest ≤ 1)
    (hq : qCount fid st.queue = mCount fid st.manifest) :
    (∀ r ∈ (poll st cid o dur).manifest, r.status = Status.QUEUED)
    ∧ mCount fid (poll st cid o dur).manifest
        = (if mCount fid st.manifest = 1 ∨ outcomeDiscovers o fid = true then 1 else 0)
    ∧ qCount fid (poll st cid o dur).queue
        = mCount fid (poll st cid o dur).manifest := by
  have hval : mCount fid st.manifest
      = (if mCount fid st.manifest = 1 then 1 else 0) := by
    by_cases h1 : mCount fid st.manifest = 1
    · simp [h1]
    · have h0 : mCount fid st.manifest = 0 := by omega
      simp [h1, h0]
  cases o with
  | err msg =>
      have hm : (poll st cid (SearchOutcome.err msg) dur).manifest = st.manifest := rfl
      have hqu : (poll st cid (SearchOutcome.err msg) dur).queue = st.queue := rfl
      rw [hm, hqu]
      refine ⟨hQ, ?_, ?_⟩
      · simpa [outcomeDiscovers] using hval
      · exact hq
  | ok ps =>
      cases ps with
      | nil =>
          have hm : (poll st cid (SearchOutcome.ok []) dur).manifest = st.manifest := rfl
          have hqu : (poll st cid (SearchOutcome.ok []) dur).queue = st.queue := rfl
          rw [hm, hqu]
          refine ⟨hQ, ?_, ?_⟩
          · simpa [outcomeDiscovers] using hval
          · exact hq
      | cons p t =>
          cases hnf : (filter_new_files st.manifest (p :: t)).isEmpty with
          | true =>
              have hm : (poll st cid (SearchOutcome.ok (p :: t)) dur).manifest
                  = st.manifest := by
                simp [poll, query_new_files, hnf]
              have hqu : (poll st cid (SearchOutcome.ok (p :: t)) dur).queue
                  = st.queue := by
                simp [poll, query_new_files, hnf]
              rw [hm, hqu]
              refine ⟨hQ, ?_, hq⟩
              by_cases h1 : mCount fid st.manifest = 1
              · simp [h1]
              · have h0 : mCount fid st.manifest = 0 := by omega
                have hany0 : st.manifest.any (fun r => r.file_id == fid) = false :=
                  (mCount_eq_zero_iff fid st.manifest).mp h0
                have hflt := filter_new_files_any fid st.manifest hany0 (p :: t)
                have hempty : filter_new_files st.manifest (p :: t) = [] :=
                  List.isEmpty_iff.mp hnf
                rw [hempty] at hflt
                simp only [List.any_nil] at hflt
                simp [outcomeDiscovers, h0, h1, ← hflt]
          | false =>
              have hm : (poll st cid (SearchOutcome.ok (p :: t)) dur).manifest
                  = (enqueue_downloads st.manifest st.queue cid
                      (filter_new_files st.manifest (p :: t))).1 := by
                simp [poll, query_new_files, hnf]
              have hqu : (poll st cid (SearchOutcome.ok (p :: t)) dur).queue
                  = (enqueue_downloads st.manifest st.queue cid
                      (filter_new_files st.manifest (p :: t))).2.1 := by
                simp [poll, query_new_files, hnf]
              obtain ⟨c1, c2, c3⟩ := enqueue_downloads_dedup fid cid
                (filter_new_files st.manifest (p :: t)) st.manifest st.queue hQ hle hq
              rw [hm, hqu]
              refine ⟨c1, ?_, c3⟩
              rw [c2]
              by_cases h1 : mCount fid st.manifest = 1
              · simp [h1]
              · have h0 : mCount fid st.manifest = 0 := by omega
                have hany0 : st.manifest.any (fun r => r.file_id == fid) = false :=
                  (mCount_eq_zero_iff fid st.manifest).mp h0
                have hflt := filter_new_files_any fid st.manifest hany0 (p :: t)
                rw [outcomeDiscovers, hflt]

/-- Invariant preservation and the dedup count identity across any sequence of
discovery cycles. -/
lemma runCycles_dedup (fid cid : String) :
    ∀ (cycles : List (SearchOutcome × Rat)) (st : PollerState),
    (∀ r ∈ st.manifest, r.status = Status.QUEUED) →
    mCount fid st.manifest ≤ 1 →
    qCount fid st.queue = mCount fid st.manifest →
    (∀ r ∈ (runCycles cid st cycles).manifest, r.status = Status.QUEUED)
    ∧ mCount fid (runCycles cid st cycles).manifest
        = (if mCount fid st.manifest = 1 ∨ cyclesDiscover cycles fid = true then 1 else 0)
    ∧ qCount fid (runCycles cid st cycles).queue
        = mCount fid (runCycles cid st cycles).manifest := by
  intro cycles
  induction cycles with
  | nil =>
      intro st hQ hle hq
      refine ⟨hQ, ?_, hq⟩
      by_cases h1 : mCount fid st.manifest = 1
      · simp [runCycles, h1, cyclesDiscover]
      · have h0 : mCount fid st.manifest = 0 := by omega
        simp [runCycles, h1, h0, cyclesDiscover]
  | cons c cs ih =>
      intro st hQ hle hq
      obtain ⟨p1, p2, p3⟩ := poll_dedup fid cid st c.1 c.2 hQ hle hq
      have hle2 : mCount fid (poll st cid c.1 c.2).manifest ≤ 1 := by
        rw [p2]
        by_cases h : mCount fid st.manifest = 1 ∨ outcomeDiscovers c.1 fid = true
        · simp [h]
        · simp [h]
      obtain ⟨c1, c2, c3⟩ := ih (poll st cid c.1 c.2) p1 hle2 p3
      have hrun : runCycles cid st (c :: cs) = runCycles cid (poll st cid c.1 c.2) cs := rfl
      rw [hrun]
      refine ⟨c1, ?_, c3⟩
      rw [c2, p2]
      have hdisc : cyclesDiscover (c :: cs) fid
          = (outcomeDiscovers c.1 fid || cyclesDiscover cs fid) := by
        simp [cyclesDiscover]
      rw [hdisc]
      by_cases ho : outcomeDiscovers c.1 fid = true
      · simp [ho]
      · by_cases h1 : mCount fid st.manifest = 1
        · simp [ho, h1]
        · simp [ho, h1]

/-- C1: across every sequence of discovery cycles, a given file_id yields
exactly one manifest record (zero when it never appears), every manifest row
is at status QUEUED, and exactly as many download tasks are enqueued as
records were created, so at most one task per file_id: the insert is
insert-if-absent and the enqueue happens only when the insert created the
record. -/
theorem discovery_dedup_single_record (cid fid : String)
    (cycles : List (SearchOutcome × Rat)) :
    mCount fid (runCycles cid emptyPollerState cycles).manifest
      = (if cyclesDiscover cycles fid = true then 1 else 0)
    ∧ qCount fid (runCycles cid emptyPollerState cycles).queue
      = (if cyclesDiscover cycles fid = true then 1 else 0)
    ∧ (runCycles cid emptyPollerState cycles).manifest.all
        (fun r => r.status == Status.QUEUED) = true := by
  obtain ⟨c1, c2, c3⟩ := runCycles_dedup fid cid cycles emptyPollerState
    (by intro r hr; simp [emptyPollerState] at hr)
    (by simp [mCount, emptyPollerState])
    (by simp [mCount, qCount, emptyPollerState])
  have h0 : mCount fid emptyPollerState.manifest = 0 := rfl
  rw [h0] at c2
  simp only [Nat.zero_ne_one, false_or] at c2
  refine ⟨c2, ?_, ?_⟩
  · rw [c3, c2]
  · rw [List.all_eq_true]
    intro r hr
    simpa using c1 r hr

end SatelliteETL
